import Mathlib

/-!
# Live polling server: the poll session coordinator of `src/server.js`

A shallow embedding of the socket event handlers of `src/server.js` and of the
three helpers they call (`isStudentNameUnique`, `getConnectedStudents`,
`haveAllStudentsAnswered`), followed by theorems about them.

Modelling conventions.

* The three module-level variables `activePoll`, `connectedUsers` and
  `teacherSocket` (lines 32-34) become the fields of `State`; the MongoDB
  collections behind `models/User.js` and `models/Poll.js` become `State.db`.
* A handler is an `async` function.  It runs until it reaches an `await` of a
  store call and goes on when that call has completed; meanwhile other
  handlers run.  `begin` is the part of a handler before its first `await`,
  `resume` the part from one `await` to the next, and `Server` holds the state
  together with the suspended handlers.  A segment returns the `emit` calls it
  makes, in program order.  An `await` of a value that is already there (the
  in-memory hit of line 41) does not end a segment.
* The functions `teacherJoin`, `studentJoin`, ..., `step` give a handler as a
  whole: its segments one after the other with no other handler in between
  (`uninterrupted_eq_step`).
* `connectedUsers` is a JavaScript `Map`: an insertion-ordered list of
  key/value pairs with at most one pair per key.
* A socket is identified by its `socket.id`, here a natural number.  An event
  may come from any socket at any time.
* The payload of `create-poll` is the record `{ question, options, timeLimit }`
  of the spec, section 6; an answer and a chat message body are strings.
* `Date.now()` / `new Date()` is an argument of the event (`now`).
* A store call takes effect when the handler that awaits it is resumed.  Store
  calls succeed, except `poll.save()` inside `savePollToDatabase`, whose
  outcome (`saved`) is an argument of the create-poll event because it decides
  the `_id` of the live poll, and the upsert of a user whose name is held by a
  document of the other role, which the unique index on `name` refuses.  The
  `lastSeen`, `createdAt` and `updatedAt` columns are never read by the
  program and are left out.
* `kick-student` closes the socket of the removed student (line 271), which
  makes socket.io run the `disconnect` handler of that socket at once, up to
  its first `await`.
-/

namespace LivePolling

/-! ## Data model -/

/-- The `socket.id` of a connection. -/
abbrev SocketId := Nat

/-- A value of the `connectedUsers` map (line 162). -/
structure User where
  name : String
  isStudent : Bool
deriving DecidableEq, Repr

/-- An entry of `activePoll.responses` (lines 222-226). -/
structure Response where
  studentName : String
  answer : String
  timestamp : Nat
deriving DecidableEq, Repr

/-- An option of a poll (`models/Poll.js`, `options`). -/
structure PollOption where
  text : String
  isCorrect : Bool
deriving DecidableEq, Repr

/-- The payload of `create-poll`. `timeLimit` may be missing. -/
structure PollData where
  question : String
  options : List PollOption
  timeLimit : Option Nat
deriving DecidableEq, Repr

/-- The live poll object built at lines 197-203. -/
structure ActivePoll where
  _id : Option Nat
  question : String
  options : List PollOption
  responses : List Response
  startTime : Nat
  timeLimit : Nat
deriving DecidableEq, Repr

/-- An element of the array returned by `getConnectedStudents` (line 55). -/
structure Student where
  socketId : SocketId
  name : String
  isOnline : Bool
deriving DecidableEq, Repr

/-- The `role` column of `models/User.js`. -/
inductive Role where
  | student
  | teacher
deriving DecidableEq, Repr

/-- A document of the `User` collection (`models/User.js`). -/
structure UserRecord where
  name : String
  role : Role
  socketId : Option SocketId
  isOnline : Bool
deriving DecidableEq, Repr

/-- A document of the `Poll` collection (`models/Poll.js`). Its `_id` is its
position in `Db.polls`. -/
structure PollRecord where
  question : String
  options : List PollOption
  timeLimit : Nat
  startTime : Nat
  endTime : Option Nat
  responses : List Response
  isActive : Bool
  totalStudents : Nat
deriving DecidableEq, Repr

/-- The durable store: the two collections. -/
structure Db where
  users : List UserRecord
  polls : List PollRecord
deriving DecidableEq, Repr

/-- The JavaScript `Map` held in `connectedUsers`. -/
abbrev UserMap := List (SocketId × User)

/-- The state of the server process together with the durable store. -/
structure State where
  activePoll : Option ActivePoll
  connectedUsers : UserMap
  teacherSocket : Option SocketId
  db : Db
deriving DecidableEq, Repr

/-- Where an `emit` is sent: `socket.emit` / `io.to(id).emit`,
`io.to('student-room').emit`, `io.emit`. -/
inductive Target where
  | socket (id : SocketId)
  | studentRoom
  | all
deriving DecidableEq, Repr

/-- The outbound notices with their payloads. -/
inductive Notice where
  | currentState (activePoll : Option ActivePoll) (connectedStudents : List Student)
      (canCreateNewPoll : Bool)
  | nameTaken
  | studentRegistered (name : String)
  | studentJoined (name : String) (socketId : SocketId)
  | newPoll (poll : ActivePoll)
  | pollCreationFailed
  | alreadyAnswered
  | pollResults (responses : List Response)
  | pollCompleted
  | canCreateNewPoll
  | kickedOut
  | chatMessage (body : String) (sender : String) (isTeacher : Bool)
  | participantsList (students : List Student)
deriving DecidableEq, Repr

/-- One `emit` call. -/
abbrev Emission := Target × Notice

/-- The inbound events of a connection (`socket.on(...)`, lines 137-329). -/
inductive Event where
  | teacherJoin (socket : SocketId)
  | studentJoin (socket : SocketId) (name : String)
  | createPoll (socket : SocketId) (pollData : PollData) (saved : Bool) (now : Nat)
  | submitAnswer (socket : SocketId) (answer : String) (now : Nat)
  | kickStudent (socket : SocketId) (studentSocketId : SocketId)
  | sendMessage (socket : SocketId) (messageData : String)
  | getParticipants (socket : SocketId)
  | rejoinStudent (socket : SocketId) (studentName : String)
  | disconnect (socket : SocketId)
deriving DecidableEq, Repr

/-! ## The `Map` operations used by the program -/

/-- `Map.prototype.get`. -/
def UserMap.get (m : UserMap) (k : SocketId) : Option User :=
  (m.find? (fun e => e.1 == k)).map (fun e => e.2)

/-- `Map.prototype.has`. -/
def UserMap.has (m : UserMap) (k : SocketId) : Bool :=
  m.any (fun e => e.1 == k)

/-- `Map.prototype.set`: an existing key keeps its place, a new key goes last. -/
def UserMap.set (m : UserMap) (k : SocketId) (v : User) : UserMap :=
  if m.has k then m.map (fun e => if e.1 == k then (k, v) else e) else m ++ [(k, v)]

/-- `Map.prototype.delete`. -/
def UserMap.delete (m : UserMap) (k : SocketId) : UserMap :=
  m.filter (fun e => !(e.1 == k))

/-! ## The store operations used by the program -/

/-- `User.findOne({ name, role })`. -/
def Db.findOneUser (db : Db) (name : String) (role : Role) : Option UserRecord :=
  db.users.find? (fun r => r.name == name && r.role == role)

/-- Apply `f` to the first element that satisfies `p`. -/
def updateFirst {α : Type} (p : α → Bool) (f : α → α) : List α → List α
  | [] => []
  | x :: xs => if p x then f x :: xs else x :: updateFirst p f xs

/-- `User.findOneAndUpdate({ name, role }, { isOnline })` without upsert. -/
def Db.setUserOnline (db : Db) (name : String) (role : Role) (isOnline : Bool) : Db :=
  let users := updateFirst (fun r => r.name == name && r.role == role)
    (fun r => { r with isOnline := isOnline }) db.users
  { db with users := users }

/-- `Poll.findByIdAndUpdate(pollId, updates)`. -/
def Db.updatePoll (db : Db) (pollId : Nat) (f : PollRecord → PollRecord) : Db :=
  { db with polls := db.polls.modify f pollId }

/-! ## Helpers of `server.js` -/

/-- Lines 37-48. -/
def isStudentNameUnique (s : State) (name : String) : Bool :=
  if s.connectedUsers.any (fun e => e.2.name == name && e.2.isStudent) then false
  else (s.db.findOneUser name Role.student).isNone

/-- Lines 51-60. -/
def getConnectedStudents (s : State) : List Student :=
  (s.connectedUsers.filter (fun e => e.2.isStudent)).map
    (fun e => { socketId := e.1, name := e.2.name, isOnline := true })

/-- Lines 63-70. -/
def haveAllStudentsAnswered (s : State) : Bool :=
  match s.activePoll with
  | none => true
  | some poll =>
    let students := getConnectedStudents s
    let answeredStudents := poll.responses.map (fun r => r.studentName)
    students.all (fun student => answeredStudents.contains student.name)

/-- Lines 75-78: the document built from the payload, before `poll.save()`. -/
def newPollDocument (s : State) (pollData : PollData) (now : Nat) : PollRecord :=
  { question := pollData.question, options := pollData.options,
    timeLimit := pollData.timeLimit.getD 60, startTime := now, endTime := none,
    responses := [], isActive := true,
    totalStudents := (getConnectedStudents s).length }

/-- Lines 79-84: `poll.save()` and the `_id` handed back (`null` on failure). -/
def Db.savePoll (db : Db) (poll : PollRecord) (saved : Bool) : Db × Option Nat :=
  if saved then ({ db with polls := db.polls ++ [poll] }, some db.polls.length)
  else (db, none)

/-- Lines 73-85: the new store and the `_id` handed back (`null` on failure). -/
def savePollToDatabase (s : State) (pollData : PollData) (saved : Bool) (now : Nat) :
    Db × Option Nat :=
  s.db.savePoll (newPollDocument s pollData now) saved

/-- Lines 88-94, applied when `activePoll._id` is set. -/
def updatePollInDatabase (db : Db) (pollId : Option Nat) (f : PollRecord → PollRecord) : Db :=
  match pollId with
  | some id => db.updatePoll id f
  | none => db

/-- Lines 97-107: upsert on `{ name, role }`. A document to insert whose name is
held by a document of the other role is refused by the unique index on `name`
(`models/User.js`); the error is caught at line 104. -/
def saveUserToDatabase (db : Db) (name : String) (role : Role) (socketId : SocketId) : Db :=
  if (db.findOneUser name role).isSome then
    let users := updateFirst (fun r => r.name == name && r.role == role)
      (fun r => { r with socketId := some socketId, isOnline := true }) db.users
    { db with users := users }
  else if db.users.any (fun r => r.name == name) then db
  else
    let user : UserRecord :=
      { name := name, role := role, socketId := some socketId, isOnline := true }
    { db with users := db.users ++ [user] }

/-! ## The event handlers -/

/-- Lines 137-151 as a whole: from the first line to the last with no other
handler in between (the await is at line 143). -/
def teacherJoin (s : State) (socket : SocketId) : State × List Emission :=
  let s1 := { s with teacherSocket := some socket }
  let s2 := { s1 with db := saveUserToDatabase s1.db "Teacher" Role.teacher socket }
  (s2, [(Target.socket socket,
    Notice.currentState s2.activePoll (getConnectedStudents s2)
      (s2.activePoll.isNone || haveAllStudentsAnswered s2))])

/-- Lines 154-181 as a whole: from the first line to the last with no other
handler in between (the awaits are at lines 156 and 167). -/
def studentJoin (s : State) (socket : SocketId) (name : String) : State × List Emission :=
  if !(isStudentNameUnique s name) then
    (s, [(Target.socket socket, Notice.nameTaken)])
  else
    let user : User := { name := name, isStudent := true }
    let s1 := { s with connectedUsers := s.connectedUsers.set socket user }
    let s2 := { s1 with db := saveUserToDatabase s1.db name Role.student socket }
    (s2, [(Target.socket socket, Notice.studentRegistered name)]
      ++ (match s2.teacherSocket with
          | some t => [(Target.socket t, Notice.studentJoined name socket)]
          | none => [])
      ++ (match s2.activePoll with
          | some poll => [(Target.socket socket, Notice.newPoll poll)]
          | none => []))

/-- Lines 184-208 as a whole: from the first line to the last with no other
handler in between (the await is at line 195). -/
def createPoll (s : State) (socket : SocketId) (pollData : PollData) (saved : Bool)
    (now : Nat) : State × List Emission :=
  if s.teacherSocket = some socket then
    if s.activePoll.isSome && !(haveAllStudentsAnswered s) then
      (s, [(Target.socket socket, Notice.pollCreationFailed)])
    else
      let r := savePollToDatabase s pollData saved now
      let poll : ActivePoll :=
        { _id := r.2, question := pollData.question, options := pollData.options,
          responses := [], startTime := now,
          timeLimit := match pollData.timeLimit with
            | some 0 => 60
            | some t => t
            | none => 60 }
      ({ s with activePoll := some poll, db := r.1 }, [(Target.studentRoom, Notice.newPoll poll)])
  else (s, [])

/-- Lines 211-256 as a whole: from the first line to the last with no other
handler in between (the awaits are at lines 232 and 244). -/
def submitAnswer (s : State) (socket : SocketId) (answer : String) (now : Nat) :
    State × List Emission :=
  match s.activePoll, s.connectedUsers.get socket with
  | some poll, some student =>
    if poll.responses.any (fun r => r.studentName == student.name) then
      (s, [(Target.socket socket, Notice.alreadyAnswered)])
    else
      let response : Response :=
        { studentName := student.name, answer := answer, timestamp := now }
      let poll1 := { poll with responses := poll.responses ++ [response] }
      let db1 := updatePollInDatabase s.db poll1._id
        (fun p => { p with responses := p.responses ++ [response] })
      let s1 := { s with activePoll := some poll1, db := db1 }
      let out := [(Target.all, Notice.pollResults poll1.responses)]
      if haveAllStudentsAnswered s1 then
        let db2 := updatePollInDatabase s1.db poll1._id
          (fun p => { p with isActive := false, endTime := some now })
        let s2 := { s1 with db := db2 }
        (s2, out ++ [(Target.all, Notice.pollCompleted)]
          ++ (match s2.teacherSocket with
              | some t => [(Target.socket t, Notice.canCreateNewPoll)]
              | none => []))
      else (s1, out)
  | _, _ => (s, [])

/-- Lines 313-329 as a whole: from the first line to the last with no other
handler in between (the await is at line 321). -/
def disconnect (s : State) (socket : SocketId) : State × List Emission :=
  let s1 := if s.teacherSocket = some socket then { s with teacherSocket := none } else s
  let s2 := match s1.connectedUsers.get socket with
    | some user =>
      let role := if user.isStudent then Role.student else Role.teacher
      { s1 with db := s1.db.setUserOnline user.name role false }
    | none => s1
  ({ s2 with connectedUsers := s2.connectedUsers.delete socket }, [])

/-- Lines 259-274 as a whole: from the first line to the last with no other
handler in between (the await is at line 264). Line 271 closes the socket of the
removed student, which runs the `disconnect` handler of that socket. -/
def kickStudent (s : State) (socket : SocketId) (studentSocketId : SocketId) :
    State × List Emission :=
  if s.teacherSocket = some socket && s.connectedUsers.has studentSocketId then
    match s.connectedUsers.get studentSocketId with
    | some student =>
      let s1 := { s with db := s.db.setUserOnline student.name Role.student false }
      let s2 := { s1 with connectedUsers := s1.connectedUsers.delete studentSocketId }
      let r := disconnect s2 studentSocketId
      (r.1, (Target.socket studentSocketId, Notice.kickedOut) :: r.2)
    | none => (s, [])
  else (s, [])

/-- Lines 277-290. -/
def sendMessage (s : State) (socket : SocketId) (messageData : String) :
    State × List Emission :=
  match s.connectedUsers.get socket with
  | some user => (s, [(Target.all, Notice.chatMessage messageData user.name (!user.isStudent))])
  | none => (s, [])

/-- Lines 293-296. -/
def getParticipants (s : State) (socket : SocketId) : State × List Emission :=
  (s, [(Target.socket socket, Notice.participantsList (getConnectedStudents s))])

/-- Lines 299-310 as a whole: from the first line to the last with no other
handler in between (the await is at line 301). -/
def rejoinStudent (s : State) (studentName : String) : State × List Emission :=
  let s1 := { s with db := s.db.setUserOnline studentName Role.student true }
  (s1, match s1.teacherSocket with
       | some t => [(Target.socket t, Notice.participantsList (getConnectedStudents s1))]
       | none => [])

/-! ## The transition system -/

/-- One inbound event handled as a whole by its handler. -/
def step (s : State) : Event → State × List Emission
  | Event.teacherJoin c => teacherJoin s c
  | Event.studentJoin c name => studentJoin s c name
  | Event.createPoll c d saved now => createPoll s c d saved now
  | Event.submitAnswer c a now => submitAnswer s c a now
  | Event.kickStudent c t => kickStudent s c t
  | Event.sendMessage c m => sendMessage s c m
  | Event.getParticipants c => getParticipants s c
  | Event.rejoinStudent _ n => rejoinStudent s n
  | Event.disconnect c => disconnect s c

/-- The state when the process starts (lines 32-34), over whatever the store
already holds. -/
def initialState (db : Db) : State :=
  { activePoll := none, connectedUsers := [], teacherSocket := none, db := db }

/-- Handle a sequence of events; the emissions of each event, in order. -/
def run (s : State) : List Event → State × List (List Emission)
  | [] => (s, [])
  | e :: es =>
    let r := step s e
    let rs := run r.1 es
    (rs.1, r.2 :: rs.2)

/-- The states the server can be in when every handler runs to its end before
the next event is taken. -/
inductive Reachable : State → Prop where
  | init (db : Db) : Reachable (initialState db)
  | step {s : State} (e : Event) : Reachable s → Reachable (step s e).1

/-- The empty store. -/
def emptyDb : Db := { users := [], polls := [] }

/-! ## The handlers, segment by segment -/

/-- A handler suspended at an `await`, with the local values it still uses. The
constructors stand for the awaits at lines 143, 46 (called from 156), 167, 79
(called from 195), 232, 244, 264, 301 and 321. -/
inductive Task where
  | teacherJoin (socket : SocketId)
  | studentJoinCheck (socket : SocketId) (name : String)
  | studentJoinSave (socket : SocketId) (name : String)
  | createPoll (pollData : PollData) (document : PollRecord) (saved : Bool)
  | submitPush (pollId : Nat) (response : Response)
  | submitComplete (pollId : Nat) (endTime : Nat)
  | kickStudent (studentSocketId : SocketId) (student : User)
  | rejoinStudent (studentName : String)
  | disconnect (socket : SocketId) (user : User)
deriving DecidableEq, Repr

/-- What a segment leaves behind: the state, the emissions, and the suspended
rest of the handler, if any. -/
abbrev Segment := State × List Emission × Option Task

/-- Lines 250-253: the two completion notices. -/
def completionNotices (s : State) : List Emission :=
  (Target.all, Notice.pollCompleted) ::
    (match s.teacherSocket with
     | some t => [(Target.socket t, Notice.canCreateNewPoll)]
     | none => [])

/-- Lines 238-254 up to the next `await`: the broadcast of the responses and the
completion check, both on the poll that is live when they run. `activePoll` is
never reset to `null`, so the first case does not occur after a push. -/
def broadcastResults (s : State) (now : Nat) : Segment :=
  match s.activePoll with
  | none => (s, [], none)
  | some poll =>
    let out := [(Target.all, Notice.pollResults poll.responses)]
    if haveAllStudentsAnswered s then
      match poll._id with
      | some id => (s, out, some (Task.submitComplete id now))
      | none => (s, out ++ completionNotices s, none)
    else (s, out, none)

/-- Lines 314-319 and 327: the `disconnect` handler up to its `await`, which it
reaches only when the socket has an entry in `connectedUsers`. -/
def disconnectBegin (s : State) (socket : SocketId) : Segment :=
  let s1 := if s.teacherSocket = some socket then { s with teacherSocket := none } else s
  match s1.connectedUsers.get socket with
  | some user => (s1, [], some (Task.disconnect socket user))
  | none => ({ s1 with connectedUsers := s1.connectedUsers.delete socket }, [], none)

/-- The part of a handler that runs when its event arrives, up to the first
`await` of a store call. -/
def begin (s : State) : Event → Segment
  | Event.teacherJoin c =>
    ({ s with teacherSocket := some c }, [], some (Task.teacherJoin c))
  | Event.studentJoin c name =>
    if s.connectedUsers.any (fun e => e.2.name == name && e.2.isStudent) then
      (s, [(Target.socket c, Notice.nameTaken)], none)
    else (s, [], some (Task.studentJoinCheck c name))
  | Event.createPoll c pollData saved now =>
    if s.teacherSocket = some c then
      if s.activePoll.isSome && !(haveAllStudentsAnswered s) then
        (s, [(Target.socket c, Notice.pollCreationFailed)], none)
      else (s, [], some (Task.createPoll pollData (newPollDocument s pollData now) saved))
    else (s, [], none)
  | Event.submitAnswer c answer now =>
    match s.activePoll, s.connectedUsers.get c with
    | some poll, some student =>
      if poll.responses.any (fun r => r.studentName == student.name) then
        (s, [(Target.socket c, Notice.alreadyAnswered)], none)
      else
        let response : Response :=
          { studentName := student.name, answer := answer, timestamp := now }
        let poll1 := { poll with responses := poll.responses ++ [response] }
        let s1 := { s with activePoll := some poll1 }
        match poll1._id with
        | some id => (s1, [], some (Task.submitPush id response))
        | none => broadcastResults s1 now
    | _, _ => (s, [], none)
  | Event.kickStudent c u =>
    if s.teacherSocket = some c && s.connectedUsers.has u then
      match s.connectedUsers.get u with
      | some student => (s, [], some (Task.kickStudent u student))
      | none => (s, [], none)
    else (s, [], none)
  | Event.sendMessage c m => ((sendMessage s c m).1, (sendMessage s c m).2, none)
  | Event.getParticipants c => ((getParticipants s c).1, (getParticipants s c).2, none)
  | Event.rejoinStudent _ n => (s, [], some (Task.rejoinStudent n))
  | Event.disconnect c => disconnectBegin s c

/-- The part of a handler that runs when the store call it awaits has completed,
up to its next `await`; `now` is the clock at that moment. -/
def resume (s : State) (now : Nat) : Task → Segment
  | Task.teacherJoin c =>
    let s2 := { s with db := saveUserToDatabase s.db "Teacher" Role.teacher c }
    (s2, [(Target.socket c,
      Notice.currentState s2.activePoll (getConnectedStudents s2)
        (s2.activePoll.isNone || haveAllStudentsAnswered s2))], none)
  | Task.studentJoinCheck c name =>
    if (s.db.findOneUser name Role.student).isSome then
      (s, [(Target.socket c, Notice.nameTaken)], none)
    else
      let user : User := { name := name, isStudent := true }
      ({ s with connectedUsers := s.connectedUsers.set c user }, [],
        some (Task.studentJoinSave c name))
  | Task.studentJoinSave c name =>
    let s2 := { s with db := saveUserToDatabase s.db name Role.student c }
    (s2, [(Target.socket c, Notice.studentRegistered name)]
      ++ (match s2.teacherSocket with
          | some t => [(Target.socket t, Notice.studentJoined name c)]
          | none => [])
      ++ (match s2.activePoll with
          | some poll => [(Target.socket c, Notice.newPoll poll)]
          | none => []), none)
  | Task.createPoll pollData document saved =>
    let r := s.db.savePoll document saved
    let poll : ActivePoll :=
      { _id := r.2, question := pollData.question, options := pollData.options,
        responses := [], startTime := now,
        timeLimit := match pollData.timeLimit with
          | some 0 => 60
          | some t => t
          | none => 60 }
    ({ s with activePoll := some poll, db := r.1 },
      [(Target.studentRoom, Notice.newPoll poll)], none)
  | Task.submitPush pollId response =>
    let db1 := s.db.updatePoll pollId
      (fun p => { p with responses := p.responses ++ [response] })
    broadcastResults { s with db := db1 } now
  | Task.submitComplete pollId endTime =>
    let db2 := s.db.updatePoll pollId
      (fun p => { p with isActive := false, endTime := some endTime })
    ({ s with db := db2 }, completionNotices s, none)
  | Task.kickStudent u student =>
    let s1 := { s with db := s.db.setUserOnline student.name Role.student false }
    let s2 := { s1 with connectedUsers := s1.connectedUsers.delete u }
    let r := disconnectBegin s2 u
    (r.1, (Target.socket u, Notice.kickedOut) :: r.2.1, r.2.2)
  | Task.rejoinStudent n =>
    let s1 := { s with db := s.db.setUserOnline n Role.student true }
    (s1, match s1.teacherSocket with
         | some t => [(Target.socket t, Notice.participantsList (getConnectedStudents s1))]
         | none => [], none)
  | Task.disconnect c user =>
    let role := if user.isStudent then Role.student else Role.teacher
    ({ s with db := s.db.setUserOnline user.name role false,
              connectedUsers := s.connectedUsers.delete c }, [], none)

/-- The server: the state and the handlers that are suspended at an `await`. -/
structure Server where
  state : State
  pending : List Task
deriving DecidableEq, Repr

/-- What happens next on the event loop: an event arrives, or the store call
awaited by the suspended handler at position `i` completes. -/
inductive Action where
  | deliver (e : Event)
  | resume (i : Nat) (now : Nat)
deriving DecidableEq, Repr

/-- One turn of the event loop. -/
def Server.act (sv : Server) : Action → Server × List Emission
  | Action.deliver e =>
    let r := begin sv.state e
    ({ state := r.1, pending := sv.pending ++ r.2.2.toList }, r.2.1)
  | Action.resume i now =>
    match sv.pending[i]? with
    | none => (sv, [])
    | some task =>
      let r := resume sv.state now task
      ({ state := r.1, pending := sv.pending.eraseIdx i ++ r.2.2.toList }, r.2.1)

/-- Turns of the event loop, one after the other; the emissions of each. -/
def Server.run (sv : Server) : List Action → Server × List (List Emission)
  | [] => (sv, [])
  | a :: as =>
    let r := sv.act a
    let rs := Server.run r.1 as
    (rs.1, r.2 :: rs.2)

/-- The server in state `s` with no handler suspended. -/
def Server.idle (s : State) : Server := { state := s, pending := [] }

/-- An event is delivered and the one store call its handler awaits completes,
with no other turn of the event loop in between. -/
def Server.handle (sv : Server) (e : Event) (now : Nat) : Server × List (List Emission) :=
  sv.run [Action.deliver e, Action.resume sv.pending.length now]

/-- The clock reading carried by an event. -/
def Event.time : Event → Nat
  | Event.createPoll _ _ _ now => now
  | Event.submitAnswer _ _ now => now
  | _ => 0

/-- The rest of a handler, run with no other handler in between. -/
def finish (now : Nat) : Nat → Segment → State × List Emission
  | 0, r => (r.1, r.2.1)
  | _ + 1, (s, out, none) => (s, out)
  | fuel + 1, (s, out, some task) =>
    let r := resume s now task
    finish now fuel (r.1, out ++ r.2.1, r.2.2)

/-- A handler from its first segment to its last with no other handler in
between. No handler has more than two awaits. -/
def uninterrupted (s : State) (e : Event) : State × List Emission :=
  finish e.time 3 (begin s e)

/-! ## Invariant of the reachable states -/

/-- What holds of every reachable state: the registry is a map (one entry per
socket) whose entries are students with pairwise different names, the responses
of the live poll carry pairwise different names, and the `_id` of the live poll
is the position of a stored poll document. -/
structure Inv (s : State) : Prop where
  registry : s.connectedUsers.Pairwise (fun a b => a.1 ≠ b.1 ∧ a.2.name ≠ b.2.name)
  students : ∀ e ∈ s.connectedUsers, e.2.isStudent = true
  responses : ∀ p, s.activePoll = some p → (p.responses.map (fun r => r.studentName)).Nodup
  pollId : ∀ p i, s.activePoll = some p → p._id = some i → i < s.db.polls.length

/-! ## Vocabulary of the properties -/

/-- The names that have an entry in the responses of the live poll. -/
def answeredNames (s : State) : List String :=
  match s.activePoll with
  | some poll => poll.responses.map (fun r => r.studentName)
  | none => []

/-- The names of the students that are online. -/
def onlineNames (s : State) : List String :=
  (getConnectedStudents s).map (fun student => student.name)

/-- The completion notice `io.emit('poll-completed', ...)` of line 250. -/
def completionNotice : Emission := (Target.all, Notice.pollCompleted)

/-- How many times `poll-completed` is emitted over a run. -/
def completionCount (out : List (List Emission)) : Nat :=
  out.flatten.count completionNotice

/-! ## Example scenarios -/

/-- The poll of the scenario of the spec, section 8. -/
def examplePoll : PollData :=
  { question := "2+2?",
    options := [{ text := "3", isCorrect := false }, { text := "4", isCorrect := true }],
    timeLimit := some 30 }

/-- A teacher on socket 1, students A and B on sockets 2 and 3, and their poll. -/
def classroom : State :=
  (run (initialState emptyDb)
    [Event.teacherJoin 1, Event.studentJoin 2 "A", Event.studentJoin 3 "B",
     Event.createPoll 1 examplePoll true 100]).1

/-- The classroom after A has answered. -/
def classroomAfterA : State := (step classroom (Event.submitAnswer 2 "4" 101)).1

/-- The classroom after A and B have answered. -/
def classroomDone : State := (step classroomAfterA (Event.submitAnswer 3 "3" 102)).1

/-- The teacher on socket 1 has also joined as the student T from that socket and
has created the poll; every handler has run to its end. -/
def ownClass : Server :=
  (Server.run (Server.idle (initialState emptyDb))
    [Action.deliver (Event.teacherJoin 1), Action.resume 0 0,
     Action.deliver (Event.studentJoin 1 "T"), Action.resume 0 0, Action.resume 0 0,
     Action.deliver (Event.createPoll 1 examplePoll true 100), Action.resume 0 100]).1

/-! ## Facts about the map operations -/

theorem UserMap.mem_of_get {m : UserMap} {k : SocketId} {u : User}
    (h : m.get k = some u) : (k, u) ∈ m := by
  unfold UserMap.get at h
  cases hf : m.find? (fun e => e.1 == k) with
  | none => simp [hf] at h
  | some e =>
    simp only [hf, Option.map_some', Option.some.injEq] at h
    have hk := List.find?_some hf
    have hm := List.mem_of_find?_eq_some hf
    simp only [beq_iff_eq] at hk
    obtain ⟨a, b⟩ := e
    simp only at hk h
    subst hk; subst h
    exact hm

theorem UserMap.get_eq_none {m : UserMap} {k : SocketId} :
    m.get k = none ↔ ∀ e ∈ m, e.1 ≠ k := by
  unfold UserMap.get
  simp [List.find?_eq_none]

theorem UserMap.has_iff {m : UserMap} {k : SocketId} :
    m.has k = true ↔ ∃ u, (k, u) ∈ m := by
  unfold UserMap.has
  simp only [List.any_eq_true, beq_iff_eq]
  constructor
  · rintro ⟨⟨a, u⟩, hm, rfl⟩
    exact ⟨u, hm⟩
  · rintro ⟨u, hm⟩
    exact ⟨(k, u), hm, rfl⟩

theorem UserMap.mem_delete {m : UserMap} {k : SocketId} {e : SocketId × User} :
    e ∈ m.delete k ↔ e ∈ m ∧ e.1 ≠ k := by
  unfold UserMap.delete
  simp [List.mem_filter]

theorem UserMap.delete_sublist (m : UserMap) (k : SocketId) :
    List.Sublist (m.delete k) m := by
  unfold UserMap.delete
  exact List.filter_sublist m

theorem UserMap.mem_set {m : UserMap} {k : SocketId} {v : User} {e : SocketId × User}
    (h : e ∈ m.set k v) : e = (k, v) ∨ e ∈ m := by
  unfold UserMap.set at h
  split at h
  · rw [List.mem_map] at h
    obtain ⟨a, ha, rfl⟩ := h
    by_cases hk : (a.1 == k) = true
    · simp [hk]
    · simp [hk, ha]
  · rw [List.mem_append, List.mem_singleton] at h
    exact h.symm

theorem UserMap.pairwise_set {m : UserMap} {k : SocketId} {v : User}
    (hp : m.Pairwise (fun a b => a.1 ≠ b.1 ∧ a.2.name ≠ b.2.name))
    (hn : ∀ e ∈ m, e.2.name ≠ v.name) :
    (m.set k v).Pairwise (fun a b => a.1 ≠ b.1 ∧ a.2.name ≠ b.2.name) := by
  unfold UserMap.set
  split
  · rw [List.pairwise_map]
    refine hp.imp_of_mem ?_
    intro a b ha hb hab
    by_cases hak : a.1 = k <;> by_cases hbk : b.1 = k
    · exact absurd (hak.trans hbk.symm) hab.1
    · simp only [hak, hbk, beq_self_eq_true, if_true, beq_iff_eq, if_false]
      exact ⟨fun h => hbk h.symm, fun h => hn b hb h.symm⟩
    · simp only [hak, hbk, beq_self_eq_true, if_true, beq_iff_eq, if_false]
      exact ⟨hak, hn a ha⟩
    · simp only [hak, hbk, beq_iff_eq, if_false]
      exact hab
  · rename_i hhas
    rw [List.pairwise_append]
    refine ⟨hp, List.pairwise_singleton _ _, ?_⟩
    intro a ha b hb
    rw [List.mem_singleton] at hb
    subst hb
    refine ⟨fun h => hhas (UserMap.has_iff.mpr ⟨a.2, ?_⟩), hn a ha⟩
    have h2 : a.1 = k := h
    rw [← h2]
    exact ha

/-! ## Frame properties of the handlers -/

@[simp] theorem teacherJoin_connectedUsers (s : State) (c : SocketId) :
    (teacherJoin s c).1.connectedUsers = s.connectedUsers := rfl

@[simp] theorem teacherJoin_activePoll (s : State) (c : SocketId) :
    (teacherJoin s c).1.activePoll = s.activePoll := rfl

@[simp] theorem teacherJoin_teacherSocket (s : State) (c : SocketId) :
    (teacherJoin s c).1.teacherSocket = some c := rfl

@[simp] theorem saveUserToDatabase_polls (db : Db) (n : String) (r : Role) (c : SocketId) :
    (saveUserToDatabase db n r c).polls = db.polls := by
  unfold saveUserToDatabase
  split
  · rfl
  · split <;> rfl

@[simp] theorem teacherJoin_polls (s : State) (c : SocketId) :
    (teacherJoin s c).1.db.polls = s.db.polls := by
  simp only [teacherJoin, saveUserToDatabase_polls]

@[simp] theorem studentJoin_activePoll (s : State) (c : SocketId) (n : String) :
    (studentJoin s c n).1.activePoll = s.activePoll := by
  unfold studentJoin
  split <;> rfl

@[simp] theorem studentJoin_teacherSocket (s : State) (c : SocketId) (n : String) :
    (studentJoin s c n).1.teacherSocket = s.teacherSocket := by
  unfold studentJoin
  split <;> rfl

@[simp] theorem studentJoin_polls (s : State) (c : SocketId) (n : String) :
    (studentJoin s c n).1.db.polls = s.db.polls := by
  unfold studentJoin
  split
  · rfl
  · simp only [saveUserToDatabase_polls]

theorem studentJoin_connectedUsers (s : State) (c : SocketId) (n : String) :
    (studentJoin s c n).1.connectedUsers =
      if isStudentNameUnique s n then
        s.connectedUsers.set c { name := n, isStudent := true }
      else s.connectedUsers := by
  unfold studentJoin
  cases isStudentNameUnique s n <;> simp

@[simp] theorem createPoll_connectedUsers (s : State) (c : SocketId) (d : PollData)
    (saved : Bool) (now : Nat) :
    (createPoll s c d saved now).1.connectedUsers = s.connectedUsers := by
  unfold createPoll
  split
  · split <;> rfl
  · rfl

@[simp] theorem createPoll_teacherSocket (s : State) (c : SocketId) (d : PollData)
    (saved : Bool) (now : Nat) :
    (createPoll s c d saved now).1.teacherSocket = s.teacherSocket := by
  unfold createPoll
  split
  · split <;> rfl
  · rfl

@[simp] theorem submitAnswer_connectedUsers (s : State) (c : SocketId) (a : String)
    (now : Nat) : (submitAnswer s c a now).1.connectedUsers = s.connectedUsers := by
  unfold submitAnswer
  split
  · split
    · rfl
    · dsimp only
      split <;> rfl
  · rfl

@[simp] theorem submitAnswer_teacherSocket (s : State) (c : SocketId) (a : String)
    (now : Nat) : (submitAnswer s c a now).1.teacherSocket = s.teacherSocket := by
  unfold submitAnswer
  split
  · split
    · rfl
    · dsimp only
      split <;> rfl
  · rfl

@[simp] theorem disconnect_activePoll (s : State) (c : SocketId) :
    (disconnect s c).1.activePoll = s.activePoll := by
  unfold disconnect
  dsimp only
  split <;> split <;> rfl

@[simp] theorem disconnect_polls (s : State) (c : SocketId) :
    (disconnect s c).1.db.polls = s.db.polls := by
  unfold disconnect
  dsimp only
  split <;> split <;> rfl

@[simp] theorem disconnect_connectedUsers (s : State) (c : SocketId) :
    (disconnect s c).1.connectedUsers = s.connectedUsers.delete c := by
  unfold disconnect
  dsimp only
  split <;> split <;> rfl

theorem disconnect_teacherSocket (s : State) (c : SocketId) :
    (disconnect s c).1.teacherSocket =
      if s.teacherSocket = some c then none else s.teacherSocket := by
  unfold disconnect
  dsimp only
  split <;> split <;> rfl

@[simp] theorem disconnect_emits (s : State) (c : SocketId) : (disconnect s c).2 = [] := rfl

@[simp] theorem kickStudent_activePoll (s : State) (c t : SocketId) :
    (kickStudent s c t).1.activePoll = s.activePoll := by
  unfold kickStudent
  split
  · split
    · simp
    · rfl
  · rfl

@[simp] theorem kickStudent_polls (s : State) (c t : SocketId) :
    (kickStudent s c t).1.db.polls = s.db.polls := by
  unfold kickStudent
  split
  · split
    · simp [Db.setUserOnline]
    · rfl
  · rfl

theorem kickStudent_connectedUsers (s : State) (c t : SocketId) :
    (kickStudent s c t).1.connectedUsers = s.connectedUsers ∨
      (kickStudent s c t).1.connectedUsers = s.connectedUsers.delete t := by
  unfold kickStudent
  split
  · split
    · right
      simp [UserMap.delete, List.filter_filter]
    · left; rfl
  · left; rfl

@[simp] theorem sendMessage_state (s : State) (c : SocketId) (m : String) :
    (sendMessage s c m).1 = s := by
  unfold sendMessage
  split <;> rfl

@[simp] theorem getParticipants_state (s : State) (c : SocketId) :
    (getParticipants s c).1 = s := rfl

@[simp] theorem rejoinStudent_activePoll (s : State) (n : String) :
    (rejoinStudent s n).1.activePoll = s.activePoll := rfl

@[simp] theorem rejoinStudent_connectedUsers (s : State) (n : String) :
    (rejoinStudent s n).1.connectedUsers = s.connectedUsers := rfl

@[simp] theorem rejoinStudent_teacherSocket (s : State) (n : String) :
    (rejoinStudent s n).1.teacherSocket = s.teacherSocket := rfl

@[simp] theorem rejoinStudent_polls (s : State) (n : String) :
    (rejoinStudent s n).1.db.polls = s.db.polls := rfl

/-! ## The completion predicate -/

theorem haveAllStudentsAnswered_iff (s : State) :
    haveAllStudentsAnswered s = true ↔
      ∀ p, s.activePoll = some p → ∀ e ∈ s.connectedUsers, e.2.isStudent = true →
        e.2.name ∈ p.responses.map (fun r => r.studentName) := by
  unfold haveAllStudentsAnswered getConnectedStudents
  cases hp : s.activePoll with
  | none => simp
  | some p =>
    simp only [List.all_eq_true, List.mem_map, List.mem_filter, Option.some.injEq,
      List.contains_eq_any_beq, List.any_eq_true, beq_iff_eq]
    constructor
    · rintro h q rfl e he hs
      obtain ⟨x, ⟨r, hr, rfl⟩, hx⟩ := h ⟨e.1, e.2.name, true⟩ ⟨e, ⟨he, hs⟩, rfl⟩
      exact ⟨r, hr, hx.symm⟩
    · rintro h st ⟨e, ⟨he, hs⟩, rfl⟩
      obtain ⟨r, hr, hx⟩ := h p rfl e he hs
      exact ⟨_, ⟨r, hr, rfl⟩, hx.symm⟩

theorem haveAllStudentsAnswered_congr {s t : State} (hp : s.activePoll = t.activePoll)
    (hu : s.connectedUsers = t.connectedUsers) :
    haveAllStudentsAnswered s = haveAllStudentsAnswered t := by
  unfold haveAllStudentsAnswered getConnectedStudents
  rw [hp, hu]

/-! ## The three outcomes of `submit-answer` -/

theorem submitAnswer_ignored {s : State} (c : SocketId) (a : String) (now : Nat)
    (h : s.activePoll = none ∨ s.connectedUsers.get c = none) :
    submitAnswer s c a now = (s, []) := by
  unfold submitAnswer
  split
  · rename_i h1 h2
    rcases h with h | h
    · rw [h] at h1; exact absurd h1 (by simp)
    · rw [h] at h2; exact absurd h2 (by simp)
  · rfl

theorem submitAnswer_duplicate {s : State} {poll : ActivePoll} {student : User}
    (c : SocketId) (a : String) (now : Nat)
    (hp : s.activePoll = some poll) (hu : s.connectedUsers.get c = some student)
    (h : student.name ∈ poll.responses.map (fun r => r.studentName)) :
    submitAnswer s c a now = (s, [(Target.socket c, Notice.alreadyAnswered)]) := by
  have hany : poll.responses.any (fun r => r.studentName == student.name) = true := by
    simp only [List.any_eq_true, beq_iff_eq]
    simpa using h
  unfold submitAnswer
  rw [hp, hu]
  simp only [hany, if_true]

theorem submitAnswer_accepted {s : State} {poll : ActivePoll} {student : User}
    (c : SocketId) (a : String) (now : Nat)
    (hp : s.activePoll = some poll) (hu : s.connectedUsers.get c = some student)
    (h : student.name ∉ poll.responses.map (fun r => r.studentName)) :
    (submitAnswer s c a now).1.activePoll =
        some { poll with responses := poll.responses ++
                 [{ studentName := student.name, answer := a, timestamp := now }] } ∧
      (submitAnswer s c a now).2 =
        (Target.all, Notice.pollResults (poll.responses ++
            [{ studentName := student.name, answer := a, timestamp := now }])) ::
          (if haveAllStudentsAnswered (submitAnswer s c a now).1 = true then
            (Target.all, Notice.pollCompleted) ::
              (match s.teacherSocket with
               | some t => [(Target.socket t, Notice.canCreateNewPoll)]
               | none => [])
           else []) := by
  have hany : poll.responses.any (fun r => r.studentName == student.name) = false := by
    rw [Bool.eq_false_iff]
    intro hh
    simp only [List.any_eq_true, beq_iff_eq] at hh
    exact h (by simpa using hh)
  unfold submitAnswer
  rw [hp, hu]
  simp only [hany, Bool.false_eq_true, if_false]
  split
  · rename_i hall
    refine ⟨rfl, ?_⟩
    rw [if_pos]
    · simp
    · rw [← hall]
      exact haveAllStudentsAnswered_congr rfl rfl
  · exact ⟨rfl, rfl⟩

theorem submitAnswer_polls_length (s : State) (c : SocketId) (a : String) (now : Nat) :
    (submitAnswer s c a now).1.db.polls.length = s.db.polls.length := by
  unfold submitAnswer
  split
  · split
    · rfl
    · dsimp only
      split <;> simp only [updatePollInDatabase] <;> cases ‹ActivePoll›._id <;>
        simp [Db.updatePoll]
  · rfl

/-! ## The three outcomes of `create-poll` -/

theorem createPoll_ignored {s : State} (c : SocketId) (d : PollData) (saved : Bool)
    (now : Nat) (h : s.teacherSocket ≠ some c) : createPoll s c d saved now = (s, []) := by
  unfold createPoll
  rw [if_neg h]

theorem createPoll_blocked {s : State} (c : SocketId) (d : PollData) (saved : Bool)
    (now : Nat) (ht : s.teacherSocket = some c) (hp : s.activePoll.isSome = true)
    (hn : haveAllStudentsAnswered s = false) :
    createPoll s c d saved now = (s, [(Target.socket c, Notice.pollCreationFailed)]) := by
  unfold createPoll
  rw [if_pos ht]
  simp [hp, hn]

theorem createPoll_ok {s : State} (c : SocketId) (d : PollData) (saved : Bool)
    (now : Nat) (ht : s.teacherSocket = some c)
    (h : s.activePoll = none ∨ haveAllStudentsAnswered s = true) :
    ∃ poll : ActivePoll,
      poll.responses = [] ∧ poll.question = d.question ∧ poll.options = d.options ∧
      poll.startTime = now ∧ poll._id = (savePollToDatabase s d saved now).2 ∧
      createPoll s c d saved now =
        ({ s with activePoll := some poll, db := (savePollToDatabase s d saved now).1 },
         [(Target.studentRoom, Notice.newPoll poll)]) := by
  have hc : (s.activePoll.isSome && !(haveAllStudentsAnswered s)) = false := by
    rcases h with h | h
    · simp [h]
    · simp [h]
  unfold createPoll
  rw [if_pos ht]
  simp only [hc, Bool.false_eq_true, if_false]
  exact ⟨_, rfl, rfl, rfl, rfl, rfl, rfl⟩

theorem createPoll_cases (s : State) (c : SocketId) (d : PollData) (saved : Bool)
    (now : Nat) :
    (createPoll s c d saved now).1 = s ∨
      ∃ poll : ActivePoll, poll.responses = [] ∧
        poll._id = (savePollToDatabase s d saved now).2 ∧
        (createPoll s c d saved now).1 =
          { s with activePoll := some poll, db := (savePollToDatabase s d saved now).1 } := by
  by_cases ht : s.teacherSocket = some c
  · by_cases h : s.activePoll = none ∨ haveAllStudentsAnswered s = true
    · obtain ⟨poll, h1, _, _, _, h5, h6⟩ := createPoll_ok c d saved now ht h
      exact Or.inr ⟨poll, h1, h5, by rw [h6]⟩
    · left
      rw [not_or] at h
      rw [createPoll_blocked c d saved now ht]
      · cases hp : s.activePoll with
        | none => exact absurd hp h.1
        | some p => rfl
      · simpa using h.2
  · left
    rw [createPoll_ignored c d saved now ht]

theorem savePollToDatabase_id (s : State) (d : PollData) (saved : Bool) (now : Nat) (i : Nat)
    (h : (savePollToDatabase s d saved now).2 = some i) :
    i < (savePollToDatabase s d saved now).1.polls.length := by
  unfold savePollToDatabase Db.savePoll at h ⊢
  cases saved
  · simp at h
  · simp only [if_true, Option.some.injEq] at h ⊢
    subst h
    simp

/-! ## The invariant holds in every reachable state -/

theorem Inv.initial (db : Db) : Inv (initialState db) where
  registry := List.Pairwise.nil
  students := by intro e he; cases he
  responses := by intro p hp; cases hp
  pollId := by intro p i hp; cases hp

theorem Inv.of_frame {s t : State} (h : Inv s) (hu : List.Sublist t.connectedUsers s.connectedUsers)
    (hp : t.activePoll = s.activePoll) (hd : t.db.polls = s.db.polls) : Inv t where
  registry := h.registry.sublist hu
  students := fun e he => h.students e (hu.subset he)
  responses := fun p hq => h.responses p (hp ▸ hq)
  pollId := fun p i hq hi => hd ▸ h.pollId p i (hp ▸ hq) hi

theorem Inv.afterStudentJoin {s : State} (h : Inv s) (c : SocketId) (n : String) :
    Inv (studentJoin s c n).1 := by
  have hcu := studentJoin_connectedUsers s c n
  by_cases hq : isStudentNameUnique s n = true
  · rw [if_pos hq] at hcu
    have hn : ∀ e ∈ s.connectedUsers, e.2.name ≠ n := by
      intro e he hen
      unfold isStudentNameUnique at hq
      split at hq
      · cases hq
      · rename_i hany
        apply hany
        simp only [List.any_eq_true, Bool.and_eq_true, beq_iff_eq]
        exact ⟨e, he, hen, h.students e he⟩
    refine ⟨?_, ?_, ?_, ?_⟩
    · rw [hcu]
      exact UserMap.pairwise_set h.registry hn
    · rw [hcu]
      intro e he
      rcases UserMap.mem_set he with rfl | he
      · rfl
      · exact h.students e he
    · intro p hp
      rw [studentJoin_activePoll] at hp
      exact h.responses p hp
    · intro p i hp hi
      rw [studentJoin_activePoll] at hp
      rw [studentJoin_polls]
      exact h.pollId p i hp hi
  · rw [if_neg hq] at hcu
    exact h.of_frame (by rw [hcu]) (by simp) (by simp)

theorem Inv.afterCreatePoll {s : State} (h : Inv s) (c : SocketId) (d : PollData) (saved : Bool)
    (now : Nat) : Inv (createPoll s c d saved now).1 := by
  rcases createPoll_cases s c d saved now with hs | ⟨poll, hr, hid, hs⟩
  · rw [hs]; exact h
  · rw [hs]
    refine ⟨h.registry, h.students, ?_, ?_⟩
    · intro p hp
      simp only [Option.some.injEq] at hp
      subst hp
      simp [hr]
    · intro p i hp hi
      simp only [Option.some.injEq] at hp
      subst hp
      rw [hid] at hi
      exact savePollToDatabase_id s d saved now i hi

theorem Inv.afterSubmitAnswer {s : State} (h : Inv s) (c : SocketId) (a : String) (now : Nat) :
    Inv (submitAnswer s c a now).1 := by
  refine ⟨?_, ?_, ?_, ?_⟩
  · rw [submitAnswer_connectedUsers]; exact h.registry
  · rw [submitAnswer_connectedUsers]; exact h.students
  · intro p hp
    cases hq : s.activePoll with
    | none =>
      rw [submitAnswer_ignored c a now (Or.inl hq)] at hp
      exact h.responses p hp
    | some poll =>
      cases hu : s.connectedUsers.get c with
      | none =>
        rw [submitAnswer_ignored c a now (Or.inr hu)] at hp
        exact h.responses p hp
      | some student =>
        by_cases hm : student.name ∈ poll.responses.map (fun r => r.studentName)
        · rw [submitAnswer_duplicate c a now hq hu hm] at hp
          exact h.responses p hp
        · rw [(submitAnswer_accepted c a now hq hu hm).1] at hp
          simp only [Option.some.injEq] at hp
          subst hp
          simp only [List.map_append, List.map_cons, List.map_nil]
          rw [List.nodup_append]
          refine ⟨h.responses poll hq, List.nodup_singleton _, ?_⟩
          intro x hx hx2
          rw [List.mem_singleton] at hx2
          subst hx2
          exact hm hx
  · intro p i hp hi
    rw [submitAnswer_polls_length]
    cases hq : s.activePoll with
    | none =>
      rw [submitAnswer_ignored c a now (Or.inl hq)] at hp
      exact h.pollId p i hp hi
    | some poll =>
      cases hu : s.connectedUsers.get c with
      | none =>
        rw [submitAnswer_ignored c a now (Or.inr hu)] at hp
        exact h.pollId p i hp hi
      | some student =>
        by_cases hm : student.name ∈ poll.responses.map (fun r => r.studentName)
        · rw [submitAnswer_duplicate c a now hq hu hm] at hp
          exact h.pollId p i hp hi
        · rw [(submitAnswer_accepted c a now hq hu hm).1] at hp
          simp only [Option.some.injEq] at hp
          subst hp
          exact h.pollId poll i hq hi

theorem Inv.afterStep {s : State} (h : Inv s) (e : Event) : Inv (step s e).1 := by
  cases e with
  | teacherJoin c => exact h.of_frame (by simp [step]) (by simp [step]) (by simp [step])
  | studentJoin c n => exact h.afterStudentJoin c n
  | createPoll c d saved now => exact h.afterCreatePoll c d saved now
  | submitAnswer c a now => exact h.afterSubmitAnswer c a now
  | kickStudent c t =>
    refine h.of_frame ?_ (by simp [step]) (by simp [step])
    rcases kickStudent_connectedUsers s c t with hk | hk
    · simp only [step]; rw [hk]
    · simp only [step]; rw [hk]; exact UserMap.delete_sublist _ _
  | sendMessage c m => simpa [step] using h
  | getParticipants c => simpa [step] using h
  | rejoinStudent c n => exact h.of_frame (by simp [step]) (by simp [step]) (by simp [step])
  | disconnect c =>
    exact h.of_frame (by simp only [step, disconnect_connectedUsers];
                         exact UserMap.delete_sublist _ _) (by simp [step]) (by simp [step])

theorem Reachable.inv {s : State} (h : Reachable s) : Inv s := by
  induction h with
  | init db => exact Inv.initial db
  | step e _ ih => exact ih.afterStep e

theorem Reachable.run {s : State} (h : Reachable s) (evs : List Event) :
    Reachable (run s evs).1 := by
  induction evs generalizing s with
  | nil => exact h
  | cons e es ih => exact ih (Reachable.step e h)

theorem classroom_reachable : Reachable classroom :=
  (Reachable.init emptyDb).run _

theorem classroomAfterA_reachable : Reachable classroomAfterA :=
  Reachable.step _ classroom_reachable

/-! ## The two outcomes of `kick-student` -/

theorem UserMap.has_of_get {m : UserMap} {k : SocketId} {u : User} (h : m.get k = some u) :
    m.has k = true :=
  UserMap.has_iff.mpr ⟨u, UserMap.mem_of_get h⟩

theorem UserMap.has_eq_false_of_get {m : UserMap} {k : SocketId} (h : m.get k = none) :
    m.has k = false := by
  rw [Bool.eq_false_iff]
  intro hh
  obtain ⟨u, hu⟩ := UserMap.has_iff.mp hh
  exact UserMap.get_eq_none.mp h (k, u) hu rfl

theorem UserMap.delete_delete (m : UserMap) (k : SocketId) :
    (m.delete k).delete k = m.delete k := by
  simp [UserMap.delete, List.filter_filter]

theorem UserMap.get_delete_self (m : UserMap) (k : SocketId) : (m.delete k).get k = none := by
  rw [UserMap.get_eq_none]
  intro e he
  exact (UserMap.mem_delete.mp he).2

theorem kickStudent_refused {s : State} (c u : SocketId)
    (h : s.teacherSocket ≠ some c ∨ s.connectedUsers.get u = none) :
    kickStudent s c u = (s, []) := by
  unfold kickStudent
  rcases h with h | h
  · simp [h]
  · simp [UserMap.has_eq_false_of_get h]

theorem kickStudent_done {s : State} {student : User} (c u : SocketId)
    (ht : s.teacherSocket = some c) (hu : s.connectedUsers.get u = some student) :
    (kickStudent s c u).1.connectedUsers = s.connectedUsers.delete u ∧
      (kickStudent s c u).1.teacherSocket = (if c = u then none else some c) ∧
      (kickStudent s c u).1.activePoll = s.activePoll ∧
      (kickStudent s c u).2 = [(Target.socket u, Notice.kickedOut)] := by
  unfold kickStudent
  rw [hu]
  simp only [ht, UserMap.has_of_get hu, decide_True, Bool.and_self, if_true,
    disconnect_connectedUsers, UserMap.delete_delete, disconnect_activePoll, disconnect_emits,
    disconnect_teacherSocket, Option.some.injEq, true_and]

/-! ## A handler as a whole is its segments run without interruption -/

theorem uninterrupted_teacherJoin (s : State) (c : SocketId) :
    uninterrupted s (Event.teacherJoin c) = step s (Event.teacherJoin c) := rfl

theorem uninterrupted_studentJoin (s : State) (c : SocketId) (n : String) :
    uninterrupted s (Event.studentJoin c n) = step s (Event.studentJoin c n) := by
  simp only [uninterrupted, begin, step, studentJoin, isStudentNameUnique]
  by_cases h1 : s.connectedUsers.any (fun e => e.2.name == n && e.2.isStudent) = true
  · simp [h1, finish]
  · cases h2 : s.db.findOneUser n Role.student with
    | none => simp [h1, h2, finish, resume]
    | some r => simp [h1, h2, finish, resume]

theorem uninterrupted_createPoll (s : State) (c : SocketId) (d : PollData) (saved : Bool)
    (now : Nat) :
    uninterrupted s (Event.createPoll c d saved now) = step s (Event.createPoll c d saved now) := by
  simp only [uninterrupted, begin, step, createPoll, Event.time]
  by_cases h1 : s.teacherSocket = some c
  · by_cases h2 : (s.activePoll.isSome && !(haveAllStudentsAnswered s)) = true
    · simp [h1, h2, finish]
    · simp [h1, h2, finish, resume, savePollToDatabase]
  · simp [h1, finish]

theorem uninterrupted_rejoinStudent (s : State) (c : SocketId) (n : String) :
    uninterrupted s (Event.rejoinStudent c n) = step s (Event.rejoinStudent c n) := rfl

theorem uninterrupted_sendMessage (s : State) (c : SocketId) (m : String) :
    uninterrupted s (Event.sendMessage c m) = step s (Event.sendMessage c m) := rfl

theorem uninterrupted_getParticipants (s : State) (c : SocketId) :
    uninterrupted s (Event.getParticipants c) = step s (Event.getParticipants c) := rfl

theorem uninterrupted_disconnect (s : State) (c : SocketId) :
    uninterrupted s (Event.disconnect c) = step s (Event.disconnect c) := by
  simp only [uninterrupted, begin, step, disconnect, disconnectBegin]
  by_cases h1 : s.teacherSocket = some c
  · simp only [h1, if_true]
    cases h2 : s.connectedUsers.get c <;> simp [finish, resume]
  · simp only [h1, if_false]
    cases h2 : s.connectedUsers.get c <;> simp [finish, resume]

theorem uninterrupted_kickStudent (s : State) (c u : SocketId) :
    uninterrupted s (Event.kickStudent c u) = step s (Event.kickStudent c u) := by
  simp only [uninterrupted, begin, step, kickStudent]
  by_cases h1 : (decide (s.teacherSocket = some c) && s.connectedUsers.has u) = true
  · simp only [h1, if_true]
    cases h2 : s.connectedUsers.get u with
    | none => simp [finish]
    | some student =>
      simp only [finish, resume, disconnectBegin, disconnect, UserMap.get_delete_self,
        List.nil_append]
      split <;> rfl
  · simp [h1, finish]

theorem uninterrupted_submitAnswer (s : State) (c : SocketId) (a : String) (now : Nat) :
    uninterrupted s (Event.submitAnswer c a now) = step s (Event.submitAnswer c a now) := by
  simp only [uninterrupted, begin, step, submitAnswer, Event.time]
  cases hp : s.activePoll with
  | none => simp [finish]
  | some poll =>
    cases hu : s.connectedUsers.get c with
    | none => simp [finish]
    | some student =>
      by_cases hany : poll.responses.any (fun r => r.studentName == student.name) = true
      · simp [hany, finish]
      · simp only [hany, if_false]
        cases hid : poll._id with
        | none =>
          simp only [broadcastResults, updatePollInDatabase, hid]
          split_ifs <;> simp_all [finish, completionNotices]
        | some id =>
          simp only [finish, resume, broadcastResults, updatePollInDatabase, hid,
            List.nil_append]
          split_ifs <;> simp_all [finish, resume, completionNotices]

/-- Handling an event with no other handler in between, segment by segment, is
the handler taken as a whole. -/
theorem uninterrupted_eq_step (s : State) (e : Event) : uninterrupted s e = step s e := by
  cases e with
  | teacherJoin c => exact uninterrupted_teacherJoin s c
  | studentJoin c n => exact uninterrupted_studentJoin s c n
  | createPoll c d saved now => exact uninterrupted_createPoll s c d saved now
  | submitAnswer c a now => exact uninterrupted_submitAnswer s c a now
  | kickStudent c u => exact uninterrupted_kickStudent s c u
  | sendMessage c m => exact uninterrupted_sendMessage s c m
  | getParticipants c => exact uninterrupted_getParticipants s c
  | rejoinStudent c n => exact uninterrupted_rejoinStudent s c n
  | disconnect c => exact uninterrupted_disconnect s c

/-! ## Turns of the event loop -/

theorem Server.handle_eq (sv : Server) (e : Event) (now : Nat) {s1 : State}
    {out : List Emission} {task : Task} (hb : begin sv.state e = (s1, out, some task)) :
    sv.handle e now =
      ({ state := (resume s1 now task).1,
         pending := sv.pending ++ (resume s1 now task).2.2.toList },
       [out, (resume s1 now task).2.1]) := by
  simp only [Server.handle, Server.run, Server.act, hb, Option.toList,
    List.getElem?_concat_length,
    List.eraseIdx_append_of_length_le (Nat.le_refl _), Nat.sub_self, List.eraseIdx_cons_zero,
    List.append_nil]

theorem begin_kickStudent {s : State} {student : User} (c u : SocketId)
    (ht : s.teacherSocket = some c) (hu : s.connectedUsers.get u = some student) :
    begin s (Event.kickStudent c u) = (s, [], some (Task.kickStudent u student)) := by
  simp [begin, ht, hu, UserMap.has_of_get hu]

theorem resume_kickStudent (s : State) (now : Nat) (u : SocketId) (student : User)
    (hne : s.teacherSocket ≠ some u) :
    resume s now (Task.kickStudent u student) =
      ({ s with db := s.db.setUserOnline student.name Role.student false,
                connectedUsers := s.connectedUsers.delete u },
       [(Target.socket u, Notice.kickedOut)], none) := by
  simp [resume, disconnectBegin, hne, UserMap.get_delete_self, UserMap.delete_delete]

theorem begin_createPoll {s : State} (c : SocketId) (d : PollData) (saved : Bool) (now : Nat)
    (ht : s.teacherSocket = some c)
    (h : s.activePoll = none ∨ haveAllStudentsAnswered s = true) :
    begin s (Event.createPoll c d saved now) =
      (s, [], some (Task.createPoll d (newPollDocument s d now) saved)) := by
  have hc : (s.activePoll.isSome && !(haveAllStudentsAnswered s)) = false := by
    rcases h with h | h <;> simp [h]
  simp [begin, ht, hc]

/-! ## The claims -/

/-- C1. In every reachable state the responses of the live poll hold no two
entries with the same `studentName`, and a `submit-answer` from a registered
student whose name is already among the responses is answered with
`already-answered` and changes nothing. -/
theorem responses_one_per_student (s : State) (hs : Reachable s) :
    (∀ poll, s.activePoll = some poll →
        (poll.responses.map (fun r => r.studentName)).Nodup) ∧
      (∀ (c : SocketId) (a : String) (now : Nat) (poll : ActivePoll) (student : User),
        s.activePoll = some poll → s.connectedUsers.get c = some student →
        student.name ∈ poll.responses.map (fun r => r.studentName) →
        step s (Event.submitAnswer c a now) =
          (s, [(Target.socket c, Notice.alreadyAnswered)])) :=
  ⟨hs.inv.responses, fun c a now _ _ hp hu hm => submitAnswer_duplicate c a now hp hu hm⟩

theorem responses_one_per_student_witness :
    Reachable classroomAfterA ∧
      answeredNames classroomAfterA = ["A"] ∧
      step classroomAfterA (Event.submitAnswer 2 "3" 102) =
        (classroomAfterA, [(Target.socket 2, Notice.alreadyAnswered)]) :=
  ⟨classroomAfterA_reachable, by decide,
    (responses_one_per_student classroomAfterA classroomAfterA_reachable).2 2 "3" 102
      _ _ rfl rfl (by decide)⟩

/-- C2. A `create-poll` from the connection that holds teacher authority is
refused with `poll-creation-failed`, leaving the state as it was, when a poll is
installed and some online student has no entry in its responses; it succeeds
when no poll is installed or the installed poll satisfies the completion
predicate: a poll with empty responses is installed and `new-poll` is emitted to
the student room. -/
theorem create_poll_gate (s : State) (c : SocketId) (d : PollData) (saved : Bool) (now : Nat)
    (ht : s.teacherSocket = some c) :
    ((∃ poll, s.activePoll = some poll ∧ ∃ e ∈ s.connectedUsers, e.2.isStudent = true ∧
          e.2.name ∉ poll.responses.map (fun r => r.studentName)) →
        step s (Event.createPoll c d saved now) =
          (s, [(Target.socket c, Notice.pollCreationFailed)])) ∧
      ((s.activePoll = none ∨ haveAllStudentsAnswered s = true) →
        ∃ poll : ActivePoll,
          poll.responses = [] ∧ poll.question = d.question ∧ poll.options = d.options ∧
          (step s (Event.createPoll c d saved now)).1.activePoll = some poll ∧
          (step s (Event.createPoll c d saved now)).1.connectedUsers = s.connectedUsers ∧
          (step s (Event.createPoll c d saved now)).1.teacherSocket = s.teacherSocket ∧
          (step s (Event.createPoll c d saved now)).2 =
            [(Target.studentRoom, Notice.newPoll poll)]) := by
  constructor
  · rintro ⟨poll, hp, e, he, hst, hne⟩
    refine createPoll_blocked c d saved now ht (by simp [hp]) ?_
    rw [Bool.eq_false_iff]
    intro hall
    exact hne ((haveAllStudentsAnswered_iff s).mp hall poll hp e he hst)
  · intro h
    obtain ⟨poll, h1, h2, h3, _, _, h6⟩ := createPoll_ok c d saved now ht h
    refine ⟨poll, h1, h2, h3, ?_, ?_, ?_, ?_⟩ <;> simp only [step] <;> rw [h6]

theorem create_poll_gate_witness :
    step classroomAfterA (Event.createPoll 1 examplePoll true 103) =
        (classroomAfterA, [(Target.socket 1, Notice.pollCreationFailed)]) ∧
      ∃ poll : ActivePoll,
        poll.responses = [] ∧ poll.question = "2+2?" ∧
        (step classroomDone (Event.createPoll 1 examplePoll true 103)).2 =
          [(Target.studentRoom, Notice.newPoll poll)] := by
  refine ⟨(create_poll_gate classroomAfterA 1 examplePoll true 103 rfl).1
      ⟨_, rfl, (3, { name := "B", isStudent := true }), by decide, rfl, by decide⟩, ?_⟩
  obtain ⟨poll, h1, h2, _, _, _, _, h7⟩ :=
    (create_poll_gate classroomDone 1 examplePoll true 103 rfl).2 (Or.inr (by decide))
  exact ⟨poll, h1, h2, h7⟩

/-- C9. Teacher authority is one slot that the latest `teacher-join` takes over:
after `teacher-join` from `c1` and then from `c2`, the slot holds `c2`; while it
does, `create-poll` and `kick-student` from `c1` change nothing and emit
nothing, a disconnect of `c1` leaves the slot with `c2`, and a disconnect of
`c2` empties it. The slot is emptied only when the socket that holds it is
disconnected, by its own disconnect or by being closed through a kick. -/
theorem teacher_slot_replace (s : State) (c1 c2 : SocketId) (h : c1 ≠ c2) :
    (step (step s (Event.teacherJoin c1)).1 (Event.teacherJoin c2)).1.teacherSocket
        = some c2 ∧
      (∀ st : State, st.teacherSocket = some c2 →
        (∀ d saved now, step st (Event.createPoll c1 d saved now) = (st, [])) ∧
        (∀ u, step st (Event.kickStudent c1 u) = (st, [])) ∧
        (step st (Event.disconnect c1)).1.teacherSocket = some c2 ∧
        (step st (Event.disconnect c2)).1.teacherSocket = none) ∧
      (∀ (st : State) (t : SocketId) (e : Event), st.teacherSocket = some t →
        (step st e).1.teacherSocket = none →
        e = Event.disconnect t ∨ e = Event.kickStudent t t) := by
  have hne : ∀ st : State, st.teacherSocket = some c2 → st.teacherSocket ≠ some c1 := by
    intro st hst hh
    rw [hst] at hh
    exact h (Option.some.inj hh).symm
  refine ⟨rfl, ?_, ?_⟩
  · intro st hst
    refine ⟨?_, ?_, ?_, ?_⟩
    · intro d saved now
      exact createPoll_ignored c1 d saved now (hne st hst)
    · intro u
      exact kickStudent_refused c1 u (Or.inl (hne st hst))
    · simp only [step]
      rw [disconnect_teacherSocket, if_neg (hne st hst), hst]
    · simp only [step]
      rw [disconnect_teacherSocket, if_pos hst]
  · intro st t e hst hnone
    cases e with
    | teacherJoin c => simp [step] at hnone
    | studentJoin c n => simp [step, hst] at hnone
    | createPoll c d saved now => simp [step, hst] at hnone
    | submitAnswer c a now => simp [step, hst] at hnone
    | kickStudent c u =>
      right
      simp only [step] at hnone
      by_cases hc : st.teacherSocket = some c
      · cases hu : st.connectedUsers.get u with
        | none =>
          rw [kickStudent_refused c u (Or.inr hu), hst] at hnone
          cases hnone
        | some student =>
          rw [(kickStudent_done c u hc hu).2.1] at hnone
          rw [hst] at hc
          have hct : t = c := Option.some.inj hc
          by_cases hcu : c = u
          · rw [← hcu, hct]
          · rw [if_neg hcu] at hnone
            cases hnone
      · rw [kickStudent_refused c u (Or.inl hc), hst] at hnone
        cases hnone
    | sendMessage c m => simp [step, hst] at hnone
    | getParticipants c => simp [step, hst] at hnone
    | rejoinStudent c n => simp [step, hst] at hnone
    | disconnect c =>
      left
      simp only [step] at hnone
      rw [disconnect_teacherSocket] at hnone
      by_cases hc : st.teacherSocket = some c
      · rw [hst] at hc
        rw [Option.some.inj hc]
      · rw [if_neg hc, hst] at hnone
        cases hnone

theorem teacher_slot_replace_witness :
    (step classroom (Event.teacherJoin 7)).1.teacherSocket = some 7 ∧
      step (step classroom (Event.teacherJoin 7)).1 (Event.createPoll 1 examplePoll true 101) =
        ((step classroom (Event.teacherJoin 7)).1, []) ∧
      step (step classroom (Event.teacherJoin 7)).1 (Event.kickStudent 1 2) =
        ((step classroom (Event.teacherJoin 7)).1, []) ∧
      (step (step classroom (Event.teacherJoin 7)).1 (Event.disconnect 1)).1.teacherSocket
        = some 7 :=
  ⟨rfl,
    ((teacher_slot_replace classroom 1 7 (by decide)).2.1 _ rfl).1 examplePoll true 101,
    ((teacher_slot_replace classroom 1 7 (by decide)).2.1 _ rfl).2.1 2,
    ((teacher_slot_replace classroom 1 7 (by decide)).2.1 _ rfl).2.2.1⟩

/-- C10, evaluated on the code. A `send-message` from the connection that holds
teacher authority and never joined as a student is not relayed: no
`chat-message` is emitted and the state is as before, because `teacher-join`
makes no entry in `connectedUsers`. -/
theorem teacher_message_dropped (db : Db) (c : SocketId) (m : String) :
    (step (initialState db) (Event.teacherJoin c)).1.teacherSocket = some c ∧
      step (step (initialState db) (Event.teacherJoin c)).1 (Event.sendMessage c m) =
        ((step (initialState db) (Event.teacherJoin c)).1, []) :=
  ⟨rfl, rfl⟩

/-- C8 as stated fails. In the classroom after A has answered, the kick of B
(and likewise the disconnect of B) turns the completion predicate from false to
true, and the handling of that event emits no `can-create-new-poll` to the
teacher on socket 1. -/
theorem removal_sends_no_notice_example :
    classroomAfterA.teacherSocket = some 1 ∧
      haveAllStudentsAnswered classroomAfterA = false ∧
      haveAllStudentsAnswered (step classroomAfterA (Event.kickStudent 1 3)).1 = true ∧
      (step classroomAfterA (Event.kickStudent 1 3)).2 =
        [(Target.socket 3, Notice.kickedOut)] ∧
      (Target.socket 1, Notice.canCreateNewPoll) ∉
        (step classroomAfterA (Event.kickStudent 1 3)).2 ∧
      haveAllStudentsAnswered (step classroomAfterA (Event.disconnect 3)).1 = true ∧
      (step classroomAfterA (Event.disconnect 3)).2 = [] := by
  decide

/-- C8, amended. The handlers of `kick-student` and `disconnect` do not announce
a change of the completion predicate: a kick emits `kicked-out` to the removed
socket or nothing, a disconnect emits nothing, so no `can-create-new-poll` is
emitted by either, and neither touches the live poll. Once the predicate holds,
its next evaluations see it: `teacher-join` is answered with `current-state`
carrying `canCreateNewPoll = true`, and `create-poll` from the teacher is
accepted. -/
theorem removal_sends_no_notice (s : State) (c u : SocketId) :
    ((step s (Event.kickStudent c u)).2 = [] ∨
        (step s (Event.kickStudent c u)).2 = [(Target.socket u, Notice.kickedOut)]) ∧
      (step s (Event.disconnect u)).2 = [] ∧
      (∀ t, (Target.socket t, Notice.canCreateNewPoll) ∉ (step s (Event.kickStudent c u)).2 ∧
        (Target.socket t, Notice.canCreateNewPoll) ∉ (step s (Event.disconnect u)).2) ∧
      (step s (Event.kickStudent c u)).1.activePoll = s.activePoll ∧
      (step s (Event.disconnect u)).1.activePoll = s.activePoll ∧
      (∀ st : State, haveAllStudentsAnswered st = true →
        (∀ t, (step st (Event.teacherJoin t)).2 =
          [(Target.socket t,
            Notice.currentState st.activePoll (getConnectedStudents st) true)]) ∧
        (∀ t d saved now, st.teacherSocket = some t →
          ∃ next : ActivePoll, next.responses = [] ∧
            (step st (Event.createPoll t d saved now)).1.activePoll = some next ∧
            (step st (Event.createPoll t d saved now)).2 =
              [(Target.studentRoom, Notice.newPoll next)])) := by
  have hk : (kickStudent s c u).2 = [] ∨
      (kickStudent s c u).2 = [(Target.socket u, Notice.kickedOut)] := by
    by_cases ht : s.teacherSocket = some c
    · cases hu : s.connectedUsers.get u with
      | none => left; rw [kickStudent_refused c u (Or.inr hu)]
      | some student => right; exact (kickStudent_done c u ht hu).2.2.2
    · left; rw [kickStudent_refused c u (Or.inl ht)]
  simp only [step]
  refine ⟨hk, rfl, ?_, kickStudent_activePoll s c u, disconnect_activePoll s u, ?_⟩
  · intro t
    refine ⟨?_, by simp⟩
    rcases hk with hk | hk <;> rw [hk] <;> simp
  · intro st hall
    refine ⟨?_, ?_⟩
    · intro t
      have h2 : haveAllStudentsAnswered (teacherJoin st t).1 = true := by
        rw [← hall]
        exact haveAllStudentsAnswered_congr rfl rfl
      have h3 : (teacherJoin st t).2 = [(Target.socket t,
          Notice.currentState st.activePoll (getConnectedStudents (teacherJoin st t).1)
            (st.activePoll.isNone || haveAllStudentsAnswered (teacherJoin st t).1))] := rfl
      rw [h3, h2, Bool.or_true]
      rfl
    · intro t d saved now ht
      obtain ⟨next, h1, _, _, _, _, h6⟩ := createPoll_ok t d saved now ht (Or.inr hall)
      exact ⟨next, h1, by rw [h6], by rw [h6]⟩

theorem removal_sends_no_notice_witness :
    (step (step classroomAfterA (Event.kickStudent 1 3)).1 (Event.teacherJoin 1)).2 =
        [(Target.socket 1, Notice.currentState
          (step classroomAfterA (Event.kickStudent 1 3)).1.activePoll
          [{ socketId := 2, name := "A", isOnline := true }] true)] ∧
      ∃ next : ActivePoll, next.responses = [] ∧
        (step (step classroomAfterA (Event.kickStudent 1 3)).1
          (Event.createPoll 1 examplePoll true 103)).2 =
            [(Target.studentRoom, Notice.newPoll next)] := by
  have h := (removal_sends_no_notice classroomAfterA 1 3).2.2.2.2.2
    (step classroomAfterA (Event.kickStudent 1 3)).1 (by decide)
  obtain ⟨next, h1, _, h3⟩ := h.2 1 examplePoll true 103 rfl
  exact ⟨h.1 1, next, h1, h3⟩

/-- C6, evaluated on the code. In the classroom, with every handler run to its
end before the next event, the answer of B completes the poll.
Without any `create-poll`, a student C who joins afterwards is sent the poll,
the answer of C is appended to the responses of that poll, `poll-completed` is
emitted a second time, and the stored document, marked not active, receives the
third response. -/
theorem late_joiner_reopens_poll :
    completionNotice ∈ (step classroomAfterA (Event.submitAnswer 3 "3" 102)).2 ∧
      answeredNames classroomDone = ["A", "B"] ∧
      (classroomDone.db.polls.map (fun p => (p.isActive, p.endTime, p.responses.length)))
        = [(false, some 102, 2)] ∧
      classroomDone.activePoll.isSome = true ∧
      (step classroomDone (Event.studentJoin 4 "C")).2 =
        [(Target.socket 4, Notice.studentRegistered "C"),
         (Target.socket 1, Notice.studentJoined "C" 4)] ++
          (classroomDone.activePoll.map
            (fun poll => (Target.socket 4, Notice.newPoll poll))).toList ∧
      answeredNames
        (run classroomDone [Event.studentJoin 4 "C", Event.submitAnswer 4 "4" 104]).1
          = ["A", "B", "C"] ∧
      completionNotice ∈
        (step (step classroomDone (Event.studentJoin 4 "C")).1
          (Event.submitAnswer 4 "4" 104)).2 ∧
      ((run classroomDone [Event.studentJoin 4 "C", Event.submitAnswer 4 "4" 104]).1.db.polls.map
          (fun p => (p.isActive, p.endTime, p.responses.length)))
        = [(false, some 104, 3)] := by
  decide

/-- C4, evaluated on the code. Two `student-join` events with the name "A" from
sockets 2 and 3 arrive while neither lookup of line 46 has completed: both pass
the in-memory check, both lookups find no document, both sockets are registered
and both are sent `student-registered`, so two online students carry one
name. -/
theorem overlapping_joins_share_name :
    (Server.run (Server.idle (initialState emptyDb))
        [Action.deliver (Event.studentJoin 2 "A"), Action.deliver (Event.studentJoin 3 "A"),
         Action.resume 0 0, Action.resume 0 0, Action.resume 0 0, Action.resume 0 0]).1.pending
        = [] ∧
      (Server.run (Server.idle (initialState emptyDb))
        [Action.deliver (Event.studentJoin 2 "A"), Action.deliver (Event.studentJoin 3 "A"),
         Action.resume 0 0, Action.resume 0 0, Action.resume 0 0,
         Action.resume 0 0]).1.state.connectedUsers
        = [(2, { name := "A", isStudent := true }), (3, { name := "A", isStudent := true })] ∧
      onlineNames (Server.run (Server.idle (initialState emptyDb))
        [Action.deliver (Event.studentJoin 2 "A"), Action.deliver (Event.studentJoin 3 "A"),
         Action.resume 0 0, Action.resume 0 0, Action.resume 0 0, Action.resume 0 0]).1.state
        = ["A", "A"] ∧
      (Server.run (Server.idle (initialState emptyDb))
        [Action.deliver (Event.studentJoin 2 "A"), Action.deliver (Event.studentJoin 3 "A"),
         Action.resume 0 0, Action.resume 0 0, Action.resume 0 0, Action.resume 0 0]).2
        = [[], [], [], [], [(Target.socket 2, Notice.studentRegistered "A")],
           [(Target.socket 3, Notice.studentRegistered "A")]] := by
  decide

/-- C5, evaluated on the code. In the classroom (poll saved, no response yet) the
answers of A and B arrive while neither store update of line 232 has completed.
Each handler, when resumed, finds both names among the responses, so each emits
`poll-completed`: the notice is emitted twice for one completion. -/
theorem overlapping_answers_complete_twice :
    completionCount (Server.run (Server.idle classroom)
        [Action.deliver (Event.submitAnswer 2 "4" 101),
         Action.deliver (Event.submitAnswer 3 "3" 102),
         Action.resume 0 103, Action.resume 0 104, Action.resume 0 105,
         Action.resume 0 106]).2 = 2 ∧
      (Server.run (Server.idle classroom)
        [Action.deliver (Event.submitAnswer 2 "4" 101),
         Action.deliver (Event.submitAnswer 3 "3" 102),
         Action.resume 0 103, Action.resume 0 104, Action.resume 0 105,
         Action.resume 0 106]).1.pending = [] ∧
      answeredNames (Server.run (Server.idle classroom)
        [Action.deliver (Event.submitAnswer 2 "4" 101),
         Action.deliver (Event.submitAnswer 3 "3" 102),
         Action.resume 0 103, Action.resume 0 104, Action.resume 0 105,
         Action.resume 0 106]).1.state = ["A", "B"] := by
  decide

/-- C3, evaluated on the code, in the classroom with its poll saved. First: A
has answered, B's answer is accepted and appended, and the teacher's
`create-poll` arrives and completes while the store update of line 232 is
pending. B's handler then emits `poll-results` carrying the empty responses of
the new poll and no `poll-completed`, although after the append every online
student had answered. Second: A's socket disconnects and B answers while the
store update of line 321 is pending; B's handler still finds A registered and
emits `poll-results` alone, and when A has been removed B is the only online
student, has answered, and no `poll-completed` was emitted. Third: when the
answers of A and B overlap, the handler of A's answer emits `poll-results`
carrying both responses and goes on to the completion branch. -/
theorem answer_outcome_depends_on_overlap :
    answeredNames (Server.run (Server.idle classroomAfterA)
        [Action.deliver (Event.submitAnswer 3 "3" 102)]).1.state = ["A", "B"] ∧
      haveAllStudentsAnswered (Server.run (Server.idle classroomAfterA)
        [Action.deliver (Event.submitAnswer 3 "3" 102)]).1.state = true ∧
      (Server.run (Server.idle classroomAfterA)
        [Action.deliver (Event.submitAnswer 3 "3" 102),
         Action.deliver (Event.createPoll 1 examplePoll true 103),
         Action.resume 1 104, Action.resume 0 105]).2
        = [[], [],
           [(Target.studentRoom, Notice.newPoll
              { _id := some 1, question := "2+2?", options := examplePoll.options,
                responses := [], startTime := 104, timeLimit := 30 })],
           [(Target.all, Notice.pollResults [])]] ∧
      (Server.run (Server.idle classroomAfterA)
        [Action.deliver (Event.submitAnswer 3 "3" 102),
         Action.deliver (Event.createPoll 1 examplePoll true 103),
         Action.resume 1 104, Action.resume 0 105]).1.pending = [] ∧
      (Server.run (Server.idle classroom)
        [Action.deliver (Event.disconnect 2), Action.deliver (Event.submitAnswer 3 "3" 101),
         Action.resume 1 102, Action.resume 0 103]).2
        = [[], [], [(Target.all, Notice.pollResults
              [{ studentName := "B", answer := "3", timestamp := 101 }])], []] ∧
      (Server.run (Server.idle classroom)
        [Action.deliver (Event.disconnect 2), Action.deliver (Event.submitAnswer 3 "3" 101),
         Action.resume 1 102, Action.resume 0 103]).1.pending = [] ∧
      onlineNames (Server.run (Server.idle classroom)
        [Action.deliver (Event.disconnect 2), Action.deliver (Event.submitAnswer 3 "3" 101),
         Action.resume 1 102, Action.resume 0 103]).1.state = ["B"] ∧
      answeredNames (Server.run (Server.idle classroom)
        [Action.deliver (Event.disconnect 2), Action.deliver (Event.submitAnswer 3 "3" 101),
         Action.resume 1 102, Action.resume 0 103]).1.state = ["B"] ∧
      (Server.run (Server.idle classroom)
        [Action.deliver (Event.submitAnswer 2 "4" 101),
         Action.deliver (Event.submitAnswer 3 "3" 102), Action.resume 0 103]).2
        = [[], [], [(Target.all, Notice.pollResults
              [{ studentName := "A", answer := "4", timestamp := 101 },
               { studentName := "B", answer := "3", timestamp := 102 }])]] ∧
      (Server.run (Server.idle classroom)
        [Action.deliver (Event.submitAnswer 2 "4" 101),
         Action.deliver (Event.submitAnswer 3 "3" 102), Action.resume 0 103]).1.pending
        = [Task.submitPush 0 { studentName := "B", answer := "3", timestamp := 102 },
           Task.submitComplete 0 103] := by
  decide

/-- C7 as stated fails. The teacher on socket 1 has also joined as the student T
from that socket and T is the only online student without a response. The kick
of socket 1 by the teacher is handled to its end: the completion predicate
becomes true, and closing the socket (line 271) runs its `disconnect` handler,
which empties the teacher slot. The `create-poll` that follows from socket 1 is
ignored: nothing is emitted and the poll of before stays installed. -/
theorem teacher_kicks_own_socket :
    ownClass.pending = [] ∧ ownClass.state.teacherSocket = some 1 ∧
      ownClass.state.connectedUsers = [(1, { name := "T", isStudent := true })] ∧
      answeredNames ownClass.state = [] ∧
      haveAllStudentsAnswered ownClass.state = false ∧
      (ownClass.handle (Event.kickStudent 1 1) 101).2 =
        [[], [(Target.socket 1, Notice.kickedOut)]] ∧
      (ownClass.handle (Event.kickStudent 1 1) 101).1.pending = [] ∧
      haveAllStudentsAnswered (ownClass.handle (Event.kickStudent 1 1) 101).1.state = true ∧
      (ownClass.handle (Event.kickStudent 1 1) 101).1.state.teacherSocket = none ∧
      (ownClass.handle (Event.kickStudent 1 1) 101).1.act
          (Action.deliver (Event.createPoll 1 examplePoll true 102)) =
        ((ownClass.handle (Event.kickStudent 1 1) 101).1, []) := by
  decide

/-- C7, amended. With a poll installed, the teacher on socket `t`, and the student
on another socket `u` the only online student without an entry in the
responses: when the kick of `u` by the teacher has been handled to its end with
no other turn of the event loop in between, `kicked-out` has been sent to `u`,
the completion predicate is true (it was false) without any answer being
submitted, the live poll, responses included, is as it was, and the teacher
slot still holds `t`; a `create-poll` from `t` handled next, again to its end,
succeeds: a poll with empty responses is installed and `new-poll` is emitted to
the student room. -/
theorem kick_last_unanswered (s : State) (ts : List Task) (t u : SocketId)
    (poll : ActivePoll) (student : User) (now1 : Nat)
    (ht : s.teacherSocket = some t) (hp : s.activePoll = some poll)
    (hu : s.connectedUsers.get u = some student) (hst : student.isStudent = true)
    (hun : student.name ∉ poll.responses.map (fun r => r.studentName))
    (ho : ∀ e ∈ s.connectedUsers, e.1 ≠ u →
      e.2.name ∈ poll.responses.map (fun r => r.studentName))
    (hut : u ≠ t) :
    haveAllStudentsAnswered s = false ∧
      (Server.handle { state := s, pending := ts } (Event.kickStudent t u) now1).2 =
        [[], [(Target.socket u, Notice.kickedOut)]] ∧
      (Server.handle { state := s, pending := ts } (Event.kickStudent t u) now1).1.pending
        = ts ∧
      haveAllStudentsAnswered
        (Server.handle { state := s, pending := ts } (Event.kickStudent t u) now1).1.state
        = true ∧
      (Server.handle { state := s, pending := ts }
        (Event.kickStudent t u) now1).1.state.activePoll = some poll ∧
      (Server.handle { state := s, pending := ts }
        (Event.kickStudent t u) now1).1.state.teacherSocket = some t ∧
      (∀ (d : PollData) (saved : Bool) (now now2 : Nat),
        ∃ next : ActivePoll,
          next.responses = [] ∧ next.question = d.question ∧ next.options = d.options ∧
          ((Server.handle { state := s, pending := ts } (Event.kickStudent t u) now1).1.handle
            (Event.createPoll t d saved now) now2).1.state.activePoll = some next ∧
          ((Server.handle { state := s, pending := ts } (Event.kickStudent t u) now1).1.handle
            (Event.createPoll t d saved now) now2).2 =
              [[], [(Target.studentRoom, Notice.newPoll next)]]) := by
  have hne : s.teacherSocket ≠ some u := by
    rw [ht]
    exact fun h => hut (Option.some.inj h).symm
  have hk := Server.handle_eq { state := s, pending := ts } (Event.kickStudent t u) now1
    (begin_kickStudent t u ht hu)
  rw [resume_kickStudent s now1 u student hne] at hk
  simp only [Option.toList, List.append_nil] at hk
  have hall : haveAllStudentsAnswered
      { s with db := s.db.setUserOnline student.name Role.student false,
               connectedUsers := s.connectedUsers.delete u } = true := by
    rw [haveAllStudentsAnswered_iff]
    intro p hq e he _
    simp only at hq he
    rw [hp] at hq
    rw [← Option.some.inj hq]
    exact ho e (UserMap.mem_delete.mp he).1 (UserMap.mem_delete.mp he).2
  rw [hk]
  refine ⟨?_, rfl, rfl, hall, hp, ht, ?_⟩
  · rw [Bool.eq_false_iff]
    intro h
    exact hun ((haveAllStudentsAnswered_iff s).mp h poll hp (u, student)
      (UserMap.mem_of_get hu) hst)
  · intro d saved now now2
    have hc := Server.handle_eq
      { state := { s with db := s.db.setUserOnline student.name Role.student false,
                          connectedUsers := s.connectedUsers.delete u },
        pending := ts } (Event.createPoll t d saved now) now2
      (begin_createPoll t d saved now ht (Or.inr hall))
    rw [hc]
    exact ⟨_, rfl, rfl, rfl, rfl, rfl⟩

theorem kick_last_unanswered_witness :
    haveAllStudentsAnswered classroomAfterA = false ∧
      haveAllStudentsAnswered
        ((Server.idle classroomAfterA).handle (Event.kickStudent 1 3) 102).1.state = true ∧
      answeredNames
        ((Server.idle classroomAfterA).handle (Event.kickStudent 1 3) 102).1.state = ["A"] ∧
      ∃ next : ActivePoll, next.responses = [] ∧
        (((Server.idle classroomAfterA).handle (Event.kickStudent 1 3) 102).1.handle
          (Event.createPoll 1 examplePoll true 103) 104).2 =
            [[], [(Target.studentRoom, Notice.newPoll next)]] := by
  have h := kick_last_unanswered classroomAfterA [] 1 3 _
    { name := "B", isStudent := true } 102 rfl rfl rfl rfl (by decide) (by decide) (by decide)
  obtain ⟨next, h1, _, _, _, h5⟩ := h.2.2.2.2.2.2 examplePoll true 103 104
  exact ⟨h.1, h.2.2.2.1, by decide, next, h1, h5⟩

end LivePolling
